import Mathlib

/-!
Verification of the trelloCLI resolution-and-dispatch logic
(src/index.js), shallowly embedded in Lean 4.

Boards, lists and cards are the remote service's collections; the client
fetches them per invocation and resolves human-readable names by
case-insensitive exact match (the first match in the service's returned
order wins).  Each CLI action performs a sequence of resolutions followed
by at most one mutating request.  An invocation is modelled as a pure
function from the remote state and the argument list to an `Outcome`:
the ordered trace of issued requests, the console output, the exit code
and the structured not-found diagnostic (when one was printed).
-/

namespace TrelloCLI

/-- A Trello board as returned by the members/me/boards endpoint. -/
structure Board where
  id : String
  name : String
deriving DecidableEq, Repr

/-- A Trello list as returned by the boards/{id}/lists endpoint;
`idBoard` is the parent board. -/
structure TList where
  id : String
  name : String
  idBoard : String
deriving DecidableEq, Repr

/-- A Trello card as returned by the lists/{id}/cards endpoint;
`idList` is the parent list and `desc` the free-text description. -/
structure Card where
  id : String
  name : String
  desc : String
  idList : String
deriving DecidableEq, Repr

/-- The remote service's state, which the client never holds
authoritatively: it fetches fresh copies per invocation. -/
structure Remote where
  boards : List Board
  lists : List TList
  cards : List Card
deriving DecidableEq, Repr

/-- The lists of a board, in the service's returned order. -/
def Remote.listsOf (r : Remote) (boardId : String) : List TList :=
  r.lists.filter (fun l => l.idBoard == boardId)

/-- The cards of a list, in the service's returned order. -/
def Remote.cardsOf (r : Remote) (listId : String) : List Card :=
  r.cards.filter (fun c => c.idList == listId)

/-- One HTTP request issued by the client, identified by verb and
resource (credentials, present on every call, are elided). -/
inductive Req where
  | getBoards : Req
  | getLists (boardId : String) : Req
  | getCards (listId : String) : Req
  | putCardList (cardId : String) (idList : String) : Req
  | postCard (idList : String) (name : String) : Req
  | deleteCard (cardId : String) : Req
deriving DecidableEq, Repr

/-- Whether a request mutates remote state (PUT, POST or DELETE). -/
def Req.isMutating : Req → Bool
  | Req.putCardList _ _ => true
  | Req.postCard _ _ => true
  | Req.deleteCard _ => true
  | _ => false

/-- The entity kind of a failed name resolution. -/
inductive EntityKind where
  | board : EntityKind
  | list : EntityKind
  | task : EntityKind
deriving DecidableEq, Repr

/-- The structured content of a not-found diagnostic: the entity kind
and the offending name, as printed by the error message. -/
structure NotFoundError where
  kind : EntityKind
  name : String
deriving DecidableEq, Repr

/-- The observable result of one CLI invocation: requests issued in
order, console lines, exit code, and the not-found diagnostic when the
invocation failed on a resolution step. -/
structure Outcome where
  requests : List Req
  output : List String
  exitCode : Nat
  error : Option NotFoundError
deriving DecidableEq, Repr

/-- The embedding of JavaScript's toLowerCase: lowercase every
character of the string. -/
def toLowerCase (s : String) : String :=
  ⟨s.data.map Char.toLower⟩

/-- The name lookup of getBoardByName (src/index.js lines 44-46):
first board whose lowercased name equals the lowercased query. -/
def getBoardByName (boards : List Board) (name : String) : Option Board :=
  boards.find? (fun b => toLowerCase b.name == toLowerCase name)

/-- The name lookup of getListByName (src/index.js lines 59-61). -/
def getListByName (lists : List TList) (name : String) : Option TList :=
  lists.find? (fun l => toLowerCase l.name == toLowerCase name)

/-- The name lookup of getTaskByName (src/index.js lines 74-76). -/
def getTaskByName (cards : List Card) (taskName : String) : Option Card :=
  cards.find? (fun c => toLowerCase c.name == toLowerCase taskName)

/-- The outcome of a failed board resolution (src/index.js lines 47-50):
print the diagnostic and exit 1. -/
def boardNotFound (reqs : List Req) (name : String) : Outcome :=
  { requests := reqs
    output := ["❌ Board \"" ++ name ++ "\" not found."]
    exitCode := 1
    error := some ⟨EntityKind.board, name⟩ }

/-- The outcome of a failed list resolution (src/index.js lines 62-65). -/
def listNotFound (reqs : List Req) (name : String) : Outcome :=
  { requests := reqs
    output := ["❌ List \"" ++ name ++ "\" not found."]
    exitCode := 1
    error := some ⟨EntityKind.list, name⟩ }

/-- The outcome of a failed task resolution (src/index.js lines 77-80). -/
def taskNotFound (reqs : List Req) (name : String) : Outcome :=
  { requests := reqs
    output := ["❌ Task \"" ++ name ++ "\" not found."]
    exitCode := 1
    error := some ⟨EntityKind.task, name⟩ }

/-- moveTask (src/index.js lines 85-96): resolve board, source list,
destination list and task in that order, then PUT the card's idList to
the destination list's id. -/
def moveTask (r : Remote) (boardName fromListName taskName toListName : String) :
    Outcome :=
  match getBoardByName r.boards boardName with
  | none => boardNotFound [Req.getBoards] boardName
  | some board =>
    match getListByName (r.listsOf board.id) fromListName with
    | none => listNotFound [Req.getBoards, Req.getLists board.id] fromListName
    | some fromList =>
      match getListByName (r.listsOf board.id) toListName with
      | none =>
        listNotFound [Req.getBoards, Req.getLists board.id, Req.getLists board.id]
          toListName
      | some toList =>
        match getTaskByName (r.cardsOf fromList.id) taskName with
        | none =>
          taskNotFound
            [Req.getBoards, Req.getLists board.id, Req.getLists board.id,
             Req.getCards fromList.id] taskName
        | some task =>
          { requests :=
              [Req.getBoards, Req.getLists board.id, Req.getLists board.id,
               Req.getCards fromList.id, Req.putCardList task.id toList.id]
            output := ["✅ Task \"" ++ taskName ++ "\" moved to \"" ++ toListName ++ "\""]
            exitCode := 0
            error := none }

/-- addTask (src/index.js lines 99-108): resolve board and list, then
POST a new card with the given name into the list. -/
def addTask (r : Remote) (boardName listName taskName : String) : Outcome :=
  match getBoardByName r.boards boardName with
  | none => boardNotFound [Req.getBoards] boardName
  | some board =>
    match getListByName (r.listsOf board.id) listName with
    | none => listNotFound [Req.getBoards, Req.getLists board.id] listName
    | some list =>
      { requests := [Req.getBoards, Req.getLists board.id, Req.postCard list.id taskName]
        output := ["✅ Task \"" ++ taskName ++ "\" added to \"" ++ listName ++ "\""]
        exitCode := 0
        error := none }

/-- deleteTask (src/index.js lines 111-121): resolve board, list and
task, then DELETE the card. -/
def deleteTask (r : Remote) (boardName listName taskName : String) : Outcome :=
  match getBoardByName r.boards boardName with
  | none => boardNotFound [Req.getBoards] boardName
  | some board =>
    match getListByName (r.listsOf board.id) listName with
    | none => listNotFound [Req.getBoards, Req.getLists board.id] listName
    | some list =>
      match getTaskByName (r.cardsOf list.id) taskName with
      | none =>
        taskNotFound
          [Req.getBoards, Req.getLists board.id, Req.getCards list.id] taskName
      | some task =>
        { requests :=
            [Req.getBoards, Req.getLists board.id, Req.getCards list.id,
             Req.deleteCard task.id]
          output := ["✅ Task \"" ++ taskName ++ "\" deleted from \"" ++ listName ++ "\""]
          exitCode := 0
          error := none }

/-- getTasksFromList (src/index.js lines 124-141): resolve board and
list, GET the list's cards; on an empty collection print the no-tasks
notice and stop, otherwise print a header and each card's name. -/
def getTasksFromList (r : Remote) (boardName listName : String) : Outcome :=
  match getBoardByName r.boards boardName with
  | none => boardNotFound [Req.getBoards] boardName
  | some board =>
    match getListByName (r.listsOf board.id) listName with
    | none => listNotFound [Req.getBoards, Req.getLists board.id] listName
    | some list =>
      let cards := r.cardsOf list.id
      if cards.length = 0 then
        { requests := [Req.getBoards, Req.getLists board.id, Req.getCards list.id]
          output := ["ℹ️ No tasks found in \"" ++ listName ++ "\"."]
          exitCode := 0
          error := none }
      else
        { requests := [Req.getBoards, Req.getLists board.id, Req.getCards list.id]
          output :=
            ("📋 Tasks in \"" ++ listName ++ "\":") ::
              cards.map (fun task => "- " ++ task.name)
          exitCode := 0
          error := none }

/-- The help text printed by showHelp (src/index.js lines 19-37),
abstracted to a single output line. -/
def helpText : List String :=
  ["Usage: trelloCLI [command] [args] — move, add, delete, get, --help"]

/-- The usage-error outcome of main (src/index.js lines 179-180). -/
def invalidArgs : Outcome :=
  { requests := []
    output := ["Invalid arguments. Run --help for usage instructions."]
    exitCode := 1
    error := none }

/-- main (src/index.js lines 144-181) on a non-empty argument list:
help flags short-circuit; otherwise the first argument is the action,
the second the board name, the rest the parameters, and each action
dispatches only when its parameter count matches.  The argument-less
interactive mode is outside the specified surface and is modelled as an
empty outcome. -/
def mainRun (r : Remote) (args : List String) : Outcome :=
  match args with
  | [] => { requests := [], output := [], exitCode := 0, error := none }
  | action :: rest =>
    if args.contains "--help" || args.contains "-h" then
      { requests := [], output := helpText, exitCode := 0, error := none }
    else
      let boardName := rest.headD ""
      let params := rest.tail
      if action == "move" && params.length == 3 then
        moveTask r boardName (params.getD 0 "") (params.getD 1 "") (params.getD 2 "")
      else if action == "add" && params.length == 2 then
        addTask r boardName (params.getD 0 "") (params.getD 1 "")
      else if action == "delete" && params.length == 2 then
        deleteTask r boardName (params.getD 0 "") (params.getD 1 "")
      else if action == "get" && params.length == 1 then
        getTasksFromList r boardName (params.getD 0 "")
      else
        invalidArgs

/-- Modelled from the spec (section 6, the remote REST contract, an
external collaborator of this program): the effect of one request on
the remote state.  GETs change nothing; PUT cards/{id}?idList= moves
the card to the given list; POST /cards creates a card with a fresh
server-assigned id; DELETE /cards/{id} removes the card. -/
def applyReq (r : Remote) : Req → Remote
  | Req.putCardList cardId idList =>
    { r with
        cards := r.cards.map (fun c =>
          if c.id == cardId then { c with idList := idList } else c) }
  | Req.postCard idList name =>
    { r with
        cards := r.cards ++ [{ id := "srv" ++ toString r.cards.length
                               name := name, desc := "", idList := idList }] }
  | Req.deleteCard cardId =>
    { r with cards := r.cards.filter (fun c => !(c.id == cardId)) }
  | _ => r

/-- The remote state after a trace of requests. -/
def applyReqs (r : Remote) (reqs : List Req) : Remote :=
  reqs.foldl applyReq r

/-- An outcome that failed on a name resolution: it carries the entity
kind and offending name, exits non-zero, and issued no mutating
request. -/
def failsNotFound (o : Outcome) (k : EntityKind) (n : String) : Prop :=
  o.error = some ⟨k, n⟩ ∧ o.exitCode ≠ 0 ∧ ∀ q ∈ o.requests, q.isMutating = false

lemma find?_eq_filter_head (p : α → Bool) (l : List α) :
    l.find? p = (l.filter p).head? := by
  induction l with
  | nil => rfl
  | cons a t ih =>
    cases hpa : p a with
    | true => rw [List.find?_cons_of_pos _ hpa, List.filter_cons, if_pos hpa]; rfl
    | false =>
      rw [List.find?_cons_of_neg _ (by simp [hpa]), List.filter_cons,
        if_neg (by simp [hpa]), ih]

/-- C1: resolving a stored board, list or task name through the three
resolvers is case-insensitive: any casing variant of the name (one with
the same lowercasing) resolves to the same entity as the canonical
name, and the canonical name of a stored entity does resolve. -/
theorem caseInsensitive_resolution (boards : List Board) (lists : List TList)
    (cards : List Card) (nb vb nl vl nc vc : String)
    (hvb : toLowerCase vb = toLowerCase nb) (hvl : toLowerCase vl = toLowerCase nl)
    (hvc : toLowerCase vc = toLowerCase nc) :
    (getBoardByName boards vb = getBoardByName boards nb ∧
      ((∃ b ∈ boards, b.name = nb) → (getBoardByName boards nb).isSome)) ∧
    (getListByName lists vl = getListByName lists nl ∧
      ((∃ l ∈ lists, l.name = nl) → (getListByName lists nl).isSome)) ∧
    (getTaskByName cards vc = getTaskByName cards nc ∧
      ((∃ c ∈ cards, c.name = nc) → (getTaskByName cards nc).isSome)) := by
  refine ⟨⟨?_, ?_⟩, ⟨?_, ?_⟩, ⟨?_, ?_⟩⟩
  · simp only [getBoardByName, hvb]
  · rintro ⟨b, hb, rfl⟩
    exact List.find?_isSome.mpr ⟨b, hb, by simp⟩
  · simp only [getListByName, hvl]
  · rintro ⟨l, hl, rfl⟩
    exact List.find?_isSome.mpr ⟨l, hl, by simp⟩
  · simp only [getTaskByName, hvc]
  · rintro ⟨c, hc, rfl⟩
    exact List.find?_isSome.mpr ⟨c, hc, by simp⟩

/-- Witness for C1 at a concrete remote: the mixed-case queries resolve
to the same entities as the canonical names, which do resolve. -/
theorem caseInsensitive_resolution_witness :
    getBoardByName [⟨"b1", "Roadmap"⟩] "rOaDmAp" = some ⟨"b1", "Roadmap"⟩ ∧
    (getBoardByName [⟨"b1", "Roadmap"⟩] "Roadmap").isSome ∧
    getListByName [⟨"l1", "In Progress", "b1"⟩] "IN PROGRESS"
      = some ⟨"l1", "In Progress", "b1"⟩ ∧
    getTaskByName [⟨"c1", "Fix bug", "", "l1"⟩] "fix BUG"
      = some ⟨"c1", "Fix bug", "", "l1"⟩ := by
  have h := caseInsensitive_resolution [⟨"b1", "Roadmap"⟩]
    [⟨"l1", "In Progress", "b1"⟩] [⟨"c1", "Fix bug", "", "l1"⟩]
    "Roadmap" "rOaDmAp" "In Progress" "IN PROGRESS" "Fix bug" "fix BUG"
    (by decide) (by decide) (by decide)
  exact ⟨h.1.1.trans (by decide), h.1.2 ⟨⟨"b1", "Roadmap"⟩, by simp, rfl⟩,
    h.2.1.1.trans (by decide), h.2.2.1.trans (by decide)⟩

lemma moveTask_error_no_mutation (r : Remote) (bn fn tn ln : String) :
    (moveTask r bn fn tn ln).error.isSome = true →
      (moveTask r bn fn tn ln).exitCode = 1 ∧
      ∀ q ∈ (moveTask r bn fn tn ln).requests, q.isMutating = false := by
  cases hb : getBoardByName r.boards bn with
  | none => simp [moveTask, hb, boardNotFound, Req.isMutating]
  | some b =>
    cases hf : getListByName (r.listsOf b.id) fn with
    | none => simp [moveTask, hb, hf, listNotFound, Req.isMutating]
    | some fl =>
      cases ht : getListByName (r.listsOf b.id) ln with
      | none => simp [moveTask, hb, hf, ht, listNotFound, Req.isMutating]
      | some tl =>
        cases hc : getTaskByName (r.cardsOf fl.id) tn with
        | none => simp [moveTask, hb, hf, ht, hc, taskNotFound, Req.isMutating]
        | some task => simp [moveTask, hb, hf, ht, hc]

lemma addTask_error_no_mutation (r : Remote) (bn ln tn : String) :
    (addTask r bn ln tn).error.isSome = true →
      (addTask r bn ln tn).exitCode = 1 ∧
      ∀ q ∈ (addTask r bn ln tn).requests, q.isMutating = false := by
  cases hb : getBoardByName r.boards bn with
  | none => simp [addTask, hb, boardNotFound, Req.isMutating]
  | some b =>
    cases hl : getListByName (r.listsOf b.id) ln with
    | none => simp [addTask, hb, hl, listNotFound, Req.isMutating]
    | some list => simp [addTask, hb, hl]

lemma deleteTask_error_no_mutation (r : Remote) (bn ln tn : String) :
    (deleteTask r bn ln tn).error.isSome = true →
      (deleteTask r bn ln tn).exitCode = 1 ∧
      ∀ q ∈ (deleteTask r bn ln tn).requests, q.isMutating = false := by
  cases hb : getBoardByName r.boards bn with
  | none => simp [deleteTask, hb, boardNotFound, Req.isMutating]
  | some b =>
    cases hl : getListByName (r.listsOf b.id) ln with
    | none => simp [deleteTask, hb, hl, listNotFound, Req.isMutating]
    | some list =>
      cases hc : getTaskByName (r.cardsOf list.id) tn with
      | none => simp [deleteTask, hb, hl, hc, taskNotFound, Req.isMutating]
      | some task => simp [deleteTask, hb, hl, hc]

lemma getTasks_error_no_mutation (r : Remote) (bn ln : String) :
    (getTasksFromList r bn ln).error.isSome = true →
      (getTasksFromList r bn ln).exitCode = 1 ∧
      ∀ q ∈ (getTasksFromList r bn ln).requests, q.isMutating = false := by
  cases hb : getBoardByName r.boards bn with
  | none => simp [getTasksFromList, hb, boardNotFound, Req.isMutating]
  | some b =>
    cases hl : getListByName (r.listsOf b.id) ln with
    | none => simp [getTasksFromList, hb, hl, listNotFound, Req.isMutating]
    | some list =>
      by_cases he : (r.cardsOf list.id).length = 0
      · simp [getTasksFromList, hb, hl, he]
      · simp [getTasksFromList, hb, hl, he]

lemma mainRun_error_no_mutation (r : Remote) (args : List String) :
    (mainRun r args).error.isSome = true →
      (mainRun r args).exitCode = 1 ∧
      ∀ q ∈ (mainRun r args).requests, q.isMutating = false := by
  cases args with
  | nil => simp [mainRun]
  | cons action rest =>
    by_cases hh :
        ("--help" = action ∨ "--help" ∈ rest) ∨ "-h" = action ∨ "-h" ∈ rest
    · simp [mainRun, hh]
    · push_neg at hh
      obtain ⟨⟨ha1, ha2⟩, ha3, ha4⟩ := hh
      by_cases h1 : action = "move" ∧ rest.length = 4
      · simpa [mainRun, ha1, ha2, ha3, ha4, h1] using
          moveTask_error_no_mutation r (rest.headD "") (rest.tail.getD 0 "")
            (rest.tail.getD 1 "") (rest.tail.getD 2 "")
      · by_cases h2 : action = "add" ∧ rest.length = 3
        · simpa [mainRun, ha1, ha2, ha3, ha4, h1, h2] using
            addTask_error_no_mutation r (rest.headD "") (rest.tail.getD 0 "")
              (rest.tail.getD 1 "")
        · by_cases h3 : action = "delete" ∧ rest.length = 3
          · simpa [mainRun, ha1, ha2, ha3, ha4, h1, h2, h3] using
              deleteTask_error_no_mutation r (rest.headD "") (rest.tail.getD 0 "")
                (rest.tail.getD 1 "")
          · by_cases h4 : action = "get" ∧ rest.length = 2
            · simpa [mainRun, ha1, ha2, ha3, ha4, h1, h2, h3, h4] using
                getTasks_error_no_mutation r (rest.headD "") (rest.tail.getD 0 "")
            · simp [mainRun, ha1, ha2, ha3, ha4, h1, h2, h3, h4, invalidArgs]

/-- C2: whenever a resolution step of a move invocation finds no
case-insensitive match, the outcome carries the entity kind and the
offending name, exits non-zero, and contains no mutating request; and
any invocation whose outcome reports a not-found error exits non-zero
without ever issuing a PUT, POST or DELETE. -/
theorem resolution_failure_short_circuits (r : Remote) (bn fn tn ln : String) :
    (getBoardByName r.boards bn = none →
      failsNotFound (moveTask r bn fn tn ln) EntityKind.board bn) ∧
    (∀ b, getBoardByName r.boards bn = some b →
      getListByName (r.listsOf b.id) fn = none →
      failsNotFound (moveTask r bn fn tn ln) EntityKind.list fn) ∧
    (∀ b fl, getBoardByName r.boards bn = some b →
      getListByName (r.listsOf b.id) fn = some fl →
      getListByName (r.listsOf b.id) ln = none →
      failsNotFound (moveTask r bn fn tn ln) EntityKind.list ln) ∧
    (∀ b fl tl, getBoardByName r.boards bn = some b →
      getListByName (r.listsOf b.id) fn = some fl →
      getListByName (r.listsOf b.id) ln = some tl →
      getTaskByName (r.cardsOf fl.id) tn = none →
      failsNotFound (moveTask r bn fn tn ln) EntityKind.task tn) ∧
    (∀ args e, (mainRun r args).error = some e →
      (mainRun r args).exitCode ≠ 0 ∧
      ∀ q ∈ (mainRun r args).requests, q.isMutating = false) := by
  refine ⟨?_, ?_, ?_, ?_, ?_⟩
  · intro hb
    simp [failsNotFound, moveTask, hb, boardNotFound, Req.isMutating]
  · intro b hb hf
    simp [failsNotFound, moveTask, hb, hf, listNotFound, Req.isMutating]
  · intro b fl hb hf ht
    simp [failsNotFound, moveTask, hb, hf, ht, listNotFound, Req.isMutating]
  · intro b fl tl hb hf ht hc
    simp [failsNotFound, moveTask, hb, hf, ht, hc, taskNotFound, Req.isMutating]
  · intro args e he
    have h := mainRun_error_no_mutation r args (by simp [he])
    exact ⟨by omega, h.2⟩

/-- Witness for C2: against an empty remote, a move invocation fails on
the board resolution with the offending name, exit code 1 and no
mutating request. -/
theorem resolution_failure_witness :
    failsNotFound (moveTask ⟨[], [], []⟩ "B" "F" "T" "D") EntityKind.board "B" :=
  (resolution_failure_short_circuits ⟨[], [], []⟩ "B" "F" "T" "D").1 rfl

/-- C3: a successful move performs the resolutions in the order board,
source list, destination list, task, issues exactly one mutating
request (the PUT moving the card), exits zero, and afterward the moved
card's list reference equals the destination list's id; moreover the
dispatcher routes a move invocation to exactly this flow. -/
theorem moveTask_success_effect (r : Remote) (bn fn tn ln : String)
    (b : Board) (fl tl : TList) (task : Card)
    (hb : getBoardByName r.boards bn = some b)
    (hf : getListByName (r.listsOf b.id) fn = some fl)
    (ht : getListByName (r.listsOf b.id) ln = some tl)
    (hc : getTaskByName (r.cardsOf fl.id) tn = some task) :
    (("--help" : String) ∉ (["move", bn, fn, tn, ln] : List String) →
      ("-h" : String) ∉ (["move", bn, fn, tn, ln] : List String) →
      mainRun r ["move", bn, fn, tn, ln] = moveTask r bn fn tn ln) ∧
    (moveTask r bn fn tn ln).requests
      = [Req.getBoards, Req.getLists b.id, Req.getLists b.id,
         Req.getCards fl.id, Req.putCardList task.id tl.id] ∧
    ((moveTask r bn fn tn ln).requests.filter Req.isMutating)
      = [Req.putCardList task.id tl.id] ∧
    (moveTask r bn fn tn ln).exitCode = 0 ∧
    (∃ c ∈ (applyReqs r (moveTask r bn fn tn ln).requests).cards,
      c.id = task.id ∧ c.idList = tl.id) ∧
    (∀ c ∈ (applyReqs r (moveTask r bn fn tn ln).requests).cards,
      c.id = task.id → c.idList = tl.id) := by
  have hreq : (moveTask r bn fn tn ln).requests
      = [Req.getBoards, Req.getLists b.id, Req.getLists b.id,
         Req.getCards fl.id, Req.putCardList task.id tl.id] := by
    simp [moveTask, hb, hf, ht, hc]
  have happ : applyReqs r (moveTask r bn fn tn ln).requests
      = { r with cards := r.cards.map (fun c =>
          if c.id == task.id then { c with idList := tl.id } else c) } := by
    rw [hreq]; rfl
  have htask : task ∈ r.cards := by
    have h1 : task ∈ r.cardsOf fl.id := List.mem_of_find?_eq_some hc
    exact List.mem_of_mem_filter h1
  refine ⟨?_, hreq, ?_, ?_, ?_, ?_⟩
  · intro h1 h2
    simp [mainRun, h1, h2]
  · rw [hreq]; simp [List.filter_cons, Req.isMutating]
  · simp [moveTask, hb, hf, ht, hc]
  · refine ⟨{ task with idList := tl.id }, ?_, rfl, rfl⟩
    rw [happ]
    have := List.mem_map_of_mem (fun c =>
      if c.id == task.id then { c with idList := tl.id } else c) htask
    simpa using this
  · intro c hcmem hcid
    rw [happ] at hcmem
    rcases List.mem_map.mp hcmem with ⟨c0, _, rfl⟩
    by_cases h0 : (c0.id == task.id) = true
    · simp [h0]
    · simp [h0] at hcid ⊢
      exact absurd hcid (by simpa using h0)

/-- Witness for C3: a concrete successful move issues one PUT and the
card ends on the destination list. -/
theorem moveTask_success_witness :
    (moveTask ⟨[⟨"b1", "Roadmap"⟩],
        [⟨"l1", "In Progress", "b1"⟩, ⟨"l2", "Done", "b1"⟩],
        [⟨"c1", "Fix bug", "", "l1"⟩]⟩
      "Roadmap" "In Progress" "Fix bug" "Done").requests
      = [Req.getBoards, Req.getLists "b1", Req.getLists "b1",
         Req.getCards "l1", Req.putCardList "c1" "l2"] ∧
    (∃ c ∈ (applyReqs ⟨[⟨"b1", "Roadmap"⟩],
        [⟨"l1", "In Progress", "b1"⟩, ⟨"l2", "Done", "b1"⟩],
        [⟨"c1", "Fix bug", "", "l1"⟩]⟩
      (moveTask ⟨[⟨"b1", "Roadmap"⟩],
        [⟨"l1", "In Progress", "b1"⟩, ⟨"l2", "Done", "b1"⟩],
        [⟨"c1", "Fix bug", "", "l1"⟩]⟩
      "Roadmap" "In Progress" "Fix bug" "Done").requests).cards,
      c.id = "c1" ∧ c.idList = "l2") := by
  have h := moveTask_success_effect ⟨[⟨"b1", "Roadmap"⟩],
      [⟨"l1", "In Progress", "b1"⟩, ⟨"l2", "Done", "b1"⟩],
      [⟨"c1", "Fix bug", "", "l1"⟩]⟩
    "Roadmap" "In Progress" "Fix bug" "Done"
    ⟨"b1", "Roadmap"⟩ ⟨"l1", "In Progress", "b1"⟩ ⟨"l2", "Done", "b1"⟩
    ⟨"c1", "Fix bug", "", "l1"⟩ (by decide) (by decide) (by decide) (by decide)
  exact ⟨h.2.1, h.2.2.2.2.1⟩

/-- C8: when two or more entities in the returned collection match the
queried name case-insensitively, the resolver returns the first
case-insensitive exact match in the service's returned ordering. -/
theorem first_match_wins (lists : List TList) (cards : List Card) (name : String)
    (_hl : 2 ≤ (lists.filter (fun l => toLowerCase l.name == toLowerCase name)).length)
    (_hc : 2 ≤ (cards.filter (fun c => toLowerCase c.name == toLowerCase name)).length) :
    getListByName lists name
      = (lists.filter (fun l => toLowerCase l.name == toLowerCase name)).head? ∧
    getTaskByName cards name
      = (cards.filter (fun c => toLowerCase c.name == toLowerCase name)).head? :=
  ⟨find?_eq_filter_head _ lists, find?_eq_filter_head _ cards⟩

/-- Witness for C8: with two lists and two cards matching "todo"
case-insensitively, resolution returns the first match in order. -/
theorem first_match_wins_witness :
    2 ≤ (([⟨"l1", "ToDo", "b"⟩, ⟨"l2", "TODO", "b"⟩] : List TList).filter
      (fun l => toLowerCase l.name == toLowerCase "todo")).length ∧
    getListByName [⟨"l1", "ToDo", "b"⟩, ⟨"l2", "TODO", "b"⟩] "todo"
      = some ⟨"l1", "ToDo", "b"⟩ ∧
    getTaskByName [⟨"c1", "toDo", "", "l"⟩, ⟨"c2", "todo", "", "l"⟩] "TODO"
      = some ⟨"c1", "toDo", "", "l"⟩ := by
  have h := first_match_wins [⟨"l1", "ToDo", "b"⟩, ⟨"l2", "TODO", "b"⟩]
    [⟨"c1", "toDo", "", "l"⟩, ⟨"c2", "todo", "", "l"⟩] "todo" (by decide) (by decide)
  exact ⟨by decide, h.1.trans (by decide), by
    have h2 := (first_match_wins [⟨"l1", "ToDo", "b"⟩, ⟨"l2", "TODO", "b"⟩]
      [⟨"c1", "toDo", "", "l"⟩, ⟨"c2", "todo", "", "l"⟩] "TODO" (by decide) (by decide)).2
    exact h2.trans (by decide)⟩

/-- C4 counterexample: the dispatcher has no append action.  Invoking
append on a task whose description is "A" with extraInfo "B" exits with
code 1, issues no request, and leaves the description "A", which is not
"A\n\n📝 B". -/
theorem append_claim_counterexample :
    (mainRun ⟨[⟨"b1", "Board"⟩], [⟨"l1", "List", "b1"⟩], [⟨"c1", "Task", "A", "l1"⟩]⟩
        ["append", "Board", "List", "Task", "B"]).exitCode = 1 ∧
    (mainRun ⟨[⟨"b1", "Board"⟩], [⟨"l1", "List", "b1"⟩], [⟨"c1", "Task", "A", "l1"⟩]⟩
        ["append", "Board", "List", "Task", "B"]).requests = [] ∧
    (applyReqs ⟨[⟨"b1", "Board"⟩], [⟨"l1", "List", "b1"⟩], [⟨"c1", "Task", "A", "l1"⟩]⟩
        (mainRun ⟨[⟨"b1", "Board"⟩], [⟨"l1", "List", "b1"⟩], [⟨"c1", "Task", "A", "l1"⟩]⟩
          ["append", "Board", "List", "Task", "B"]).requests).cards
      = [⟨"c1", "Task", "A", "l1"⟩] ∧
    ("A" : String) ≠ "A\n\n📝 B" := by
  decide

/-- C4 amended: the append action is not implemented.  Any invocation
whose action token is "append" (and which carries no help flag) exits
with the usage error, issues no request, and leaves the remote state —
hence every description — unchanged. -/
theorem append_unsupported (r : Remote) (rest : List String)
    (h1 : ("--help" : String) ∉ "append" :: rest)
    (h2 : ("-h" : String) ∉ "append" :: rest) :
    mainRun r ("append" :: rest) = invalidArgs ∧
    applyReqs r (mainRun r ("append" :: rest)).requests = r := by
  rw [List.mem_cons, not_or] at h1 h2
  have hm : mainRun r ("append" :: rest) = invalidArgs := by
    simp [mainRun, h1.2, h2.2]
  exact ⟨hm, by rw [hm]; rfl⟩

/-- Witness for the amended C4: a concrete append invocation is
rejected with no request and no state change. -/
theorem append_unsupported_witness :
    mainRun ⟨[], [], []⟩ ["append", "Board", "List", "Task", "B"] = invalidArgs ∧
    applyReqs ⟨[], [], []⟩
      (mainRun ⟨[], [], []⟩ ["append", "Board", "List", "Task", "B"]).requests
      = ⟨[], [], []⟩ :=
  append_unsupported ⟨[], [], []⟩ ["Board", "List", "Task", "B"]
    (by decide) (by decide)

/-- C5 counterexample: on a card whose description "details" is
present, the get action prints only the card's name; no output line
contains the description. -/
theorem get_description_counterexample :
    (getTasksFromList
        ⟨[⟨"b1", "Board"⟩], [⟨"l1", "List", "b1"⟩], [⟨"c1", "Task", "details", "l1"⟩]⟩
        "Board" "List").output = ["📋 Tasks in \"List\":", "- Task"] ∧
    ∀ s ∈ (getTasksFromList
        ⟨[⟨"b1", "Board"⟩], [⟨"l1", "List", "b1"⟩], [⟨"c1", "Task", "details", "l1"⟩]⟩
        "Board" "List").output, ¬ List.IsInfix "details".data s.data := by
  decide

/-- C5 amended: the get action fetches all cards of the resolved list
and prints, for each card, its name only (the description is never
printed). -/
theorem getTasks_prints_names (r : Remote) (bn ln : String) (b : Board) (list : TList)
    (hb : getBoardByName r.boards bn = some b)
    (hl : getListByName (r.listsOf b.id) ln = some list)
    (hne : r.cardsOf list.id ≠ []) :
    (getTasksFromList r bn ln).requests
      = [Req.getBoards, Req.getLists b.id, Req.getCards list.id] ∧
    (getTasksFromList r bn ln).output
      = ("📋 Tasks in \"" ++ ln ++ "\":")
          :: (r.cardsOf list.id).map (fun task => "- " ++ task.name) ∧
    (getTasksFromList r bn ln).exitCode = 0 := by
  have hlen : ¬(r.cardsOf list.id).length = 0 := by
    simpa [List.length_eq_zero] using hne
  refine ⟨?_, ?_, ?_⟩ <;> simp [getTasksFromList, hb, hl, hlen]

/-- Witness for the amended C5: the concrete outputs of a get on a
non-empty list are the header and one name line per card. -/
theorem getTasks_prints_names_witness :
    (getTasksFromList
        ⟨[⟨"b1", "Board"⟩], [⟨"l1", "List", "b1"⟩], [⟨"c1", "Task", "details", "l1"⟩]⟩
        "Board" "List").requests
      = [Req.getBoards, Req.getLists "b1", Req.getCards "l1"] ∧
    (getTasksFromList
        ⟨[⟨"b1", "Board"⟩], [⟨"l1", "List", "b1"⟩], [⟨"c1", "Task", "details", "l1"⟩]⟩
        "Board" "List").exitCode = 0 := by
  have h := getTasks_prints_names
    ⟨[⟨"b1", "Board"⟩], [⟨"l1", "List", "b1"⟩], [⟨"c1", "Task", "details", "l1"⟩]⟩
    "Board" "List" ⟨"b1", "Board"⟩ ⟨"l1", "List", "b1"⟩
    (by decide) (by decide) (by decide)
  exact ⟨h.1, h.2.2⟩

/-- C6 counterexample: the dispatcher has no comment action.  The exact
invocation from the claim exits with code 1 and issues no request, so
no comment text is posted at all. -/
theorem comment_claim_counterexample :
    (mainRun ⟨[⟨"b1", "Roadmap"⟩], [⟨"l1", "In Progress", "b1"⟩],
        [⟨"c1", "Fix bug #42", "", "l1"⟩]⟩
        ["comment", "Roadmap", "In Progress", "Fix bug #42",
         "needs", "more", "testing"]).exitCode = 1 ∧
    (mainRun ⟨[⟨"b1", "Roadmap"⟩], [⟨"l1", "In Progress", "b1"⟩],
        [⟨"c1", "Fix bug #42", "", "l1"⟩]⟩
        ["comment", "Roadmap", "In Progress", "Fix bug #42",
         "needs", "more", "testing"]).requests = [] := by
  decide

/-- C6 amended: the comment action is not implemented.  Any invocation
whose action token is "comment" (and which carries no help flag) exits
with the usage error and issues no request: no comment is posted. -/
theorem comment_unsupported (r : Remote) (rest : List String)
    (h1 : ("--help" : String) ∉ "comment" :: rest)
    (h2 : ("-h" : String) ∉ "comment" :: rest) :
    mainRun r ("comment" :: rest) = invalidArgs ∧
    (mainRun r ("comment" :: rest)).requests = [] ∧
    (mainRun r ("comment" :: rest)).exitCode = 1 := by
  rw [List.mem_cons, not_or] at h1 h2
  have hm : mainRun r ("comment" :: rest) = invalidArgs := by
    simp [mainRun, h1.2, h2.2]
  exact ⟨hm, by rw [hm]; rfl, by rw [hm]; rfl⟩

/-- Witness for the amended C6: the claim's concrete comment invocation
is rejected with no request. -/
theorem comment_unsupported_witness :
    mainRun ⟨[], [], []⟩ ["comment", "Roadmap", "In Progress", "Fix bug #42",
        "needs", "more", "testing"] = invalidArgs ∧
    (mainRun ⟨[], [], []⟩ ["comment", "Roadmap", "In Progress", "Fix bug #42",
        "needs", "more", "testing"]).requests = [] ∧
    (mainRun ⟨[], [], []⟩ ["comment", "Roadmap", "In Progress", "Fix bug #42",
        "needs", "more", "testing"]).exitCode = 1 :=
  comment_unsupported ⟨[], [], []⟩
    ["Roadmap", "In Progress", "Fix bug #42", "needs", "more", "testing"]
    (by decide) (by decide)

/-- C7 counterexample: the argument list ["--help"] has an action token
that is none of move, add, delete, get, yet the program exits with code
0 rather than non-zero. -/
theorem unknown_action_help_counterexample :
    (("--help" : String) ≠ "move" ∧ ("--help" : String) ≠ "add" ∧
      ("--help" : String) ≠ "delete" ∧ ("--help" : String) ≠ "get") ∧
    (mainRun ⟨[], [], []⟩ ["--help"]).exitCode = 0 ∧
    (mainRun ⟨[], [], []⟩ ["--help"]).requests = [] := by
  decide

/-- C7 amended: provided the argument list contains neither "--help"
nor "-h", an unknown action token or a known action with the wrong
argument count exits with code 1 without issuing any request. -/
theorem invalid_invocation_no_network (r : Remote) (action : String)
    (rest : List String)
    (h1 : ("--help" : String) ∉ action :: rest)
    (h2 : ("-h" : String) ∉ action :: rest)
    (hbad : ¬((action = "move" ∧ rest.length = 4) ∨
      (action = "add" ∧ rest.length = 3) ∨
      (action = "delete" ∧ rest.length = 3) ∨
      (action = "get" ∧ rest.length = 2))) :
    mainRun r (action :: rest) = invalidArgs ∧
    (mainRun r (action :: rest)).exitCode = 1 ∧
    (mainRun r (action :: rest)).requests = [] := by
  rw [List.mem_cons, not_or] at h1 h2
  rw [not_or, not_or, not_or] at hbad
  obtain ⟨hb1, hb2, hb3, hb4⟩ := hbad
  have hm : mainRun r (action :: rest) = invalidArgs := by
    simp [mainRun, h1.1, h1.2, h2.1, h2.2, hb1, hb2, hb3, hb4]
  exact ⟨hm, by rw [hm]; rfl, by rw [hm]; rfl⟩

/-- Witness for the amended C7: an unknown action token is rejected
with exit code 1 and no request. -/
theorem invalid_invocation_witness :
    mainRun ⟨[], [], []⟩ ["frobnicate", "Board"] = invalidArgs ∧
    (mainRun ⟨[], [], []⟩ ["frobnicate", "Board"]).exitCode = 1 ∧
    (mainRun ⟨[], [], []⟩ ["frobnicate", "Board"]).requests = [] :=
  invalid_invocation_no_network ⟨[], [], []⟩ "frobnicate" ["Board"]
    (by decide) (by decide) (by decide)

/-- C9: a get action on a list whose fetched card collection is empty
prints the explicit no-tasks notice, and the card fetch is the last
request of the invocation. -/
theorem get_empty_list_no_tasks (r : Remote) (bn ln : String) (b : Board)
    (list : TList)
    (hb : getBoardByName r.boards bn = some b)
    (hl : getListByName (r.listsOf b.id) ln = some list)
    (he : r.cardsOf list.id = []) :
    (getTasksFromList r bn ln).output = ["ℹ️ No tasks found in \"" ++ ln ++ "\"."] ∧
    (getTasksFromList r bn ln).requests
      = [Req.getBoards, Req.getLists b.id, Req.getCards list.id] ∧
    (getTasksFromList r bn ln).requests.getLast? = some (Req.getCards list.id) ∧
    (getTasksFromList r bn ln).exitCode = 0 := by
  refine ⟨?_, ?_, ?_, ?_⟩ <;> simp [getTasksFromList, hb, hl, he]

/-- Witness for C9: a concrete get on an empty list prints the notice
and stops after the card fetch. -/
theorem get_empty_list_witness :
    (getTasksFromList ⟨[⟨"b1", "Board"⟩], [⟨"l1", "List", "b1"⟩], []⟩
        "Board" "List").output = ["ℹ️ No tasks found in \"" ++ "List" ++ "\"."] ∧
    (getTasksFromList ⟨[⟨"b1", "Board"⟩], [⟨"l1", "List", "b1"⟩], []⟩
        "Board" "List").requests
      = [Req.getBoards, Req.getLists "b1", Req.getCards "l1"] ∧
    (getTasksFromList ⟨[⟨"b1", "Board"⟩], [⟨"l1", "List", "b1"⟩], []⟩
        "Board" "List").requests.getLast? = some (Req.getCards "l1") ∧
    (getTasksFromList ⟨[⟨"b1", "Board"⟩], [⟨"l1", "List", "b1"⟩], []⟩
        "Board" "List").exitCode = 0 :=
  get_empty_list_no_tasks ⟨[⟨"b1", "Board"⟩], [⟨"l1", "List", "b1"⟩], []⟩
    "Board" "List" ⟨"b1", "Board"⟩ ⟨"l1", "List", "b1"⟩
    (by decide) (by decide) (by decide)

/-- C10: any non-empty argument list containing "--help" or "-h" at any
position makes the program print the help text and exit 0 without
issuing any request. -/
theorem help_flag_short_circuits (r : Remote) (args : List String)
    (hne : args ≠ [])
    (hh : ("--help" : String) ∈ args ∨ ("-h" : String) ∈ args) :
    mainRun r args
      = { requests := [], output := helpText, exitCode := 0, error := none } := by
  cases args with
  | nil => exact absurd rfl hne
  | cons action rest =>
    have hcond : ("--help" = action ∨ "--help" ∈ rest) ∨
        "-h" = action ∨ "-h" ∈ rest := by
      rcases hh with h | h <;> rcases List.mem_cons.mp h with h | h <;> tauto
    simp [mainRun, hcond]

/-- Witness for C10: with the help flag trailing an otherwise valid get
invocation, only the help text is produced and no request is issued. -/
theorem help_flag_witness :
    mainRun ⟨[⟨"b1", "Board"⟩], [⟨"l1", "List", "b1"⟩], []⟩
        ["get", "Board", "List", "--help"]
      = { requests := [], output := helpText, exitCode := 0, error := none } :=
  help_flag_short_circuits ⟨[⟨"b1", "Board"⟩], [⟨"l1", "List", "b1"⟩], []⟩
    ["get", "Board", "List", "--help"] (by decide) (by decide)

end TrelloCLI
